import Mathlib

/-!
Shallow embedding of the two screens of `src/frontend/app/index.tsx`:
the `FilleAI` assistant screen (offline answer cache, network-mode gate,
live HTTP query path) and the `PatientChat` socket screen (message ledger,
typing, read receipts).  Presentation-only state (animations, haptics,
scroll positions, suggested questions, input heights, health-metric
bookkeeping) is outside every property considered here and is omitted;
everything the properties touch is translated statement by statement from
the source.
-/

/-! ## Assistant screen (`FilleAI`, lines 62-1124) -/

/-- One chat bubble of the assistant conversation: `type` is `"user"` or
`"computer"` and `text` the rendered body (source line 67). -/
structure AIMsg where
  type : String
  text : String
deriving DecidableEq

/-- The state of the `FilleAI` component that the submit path reads or
writes: `messages`, `inputText`, `isLoading`, `isOnline` and the
`offlineResponses` record (source lines 66-85).  A JS record is embedded as
an association list with distinct keys. -/
structure AIState where
  messages : List AIMsg
  inputText : String
  isLoading : Bool
  isOnline : Bool
  offlineResponses : List (String × String)
deriving DecidableEq

/-- JS object lookup `r[k]`: the stored value when the key is present,
`none` for JS `undefined`. -/
def recordGet (r : List (String × String)) (k : String) : Option String :=
  (r.find? (fun p => p.fst = k)).map Prod.snd

/-- JS `String.prototype.trim()`: drops leading and trailing whitespace. -/
def jsTrim (s : String) : String :=
  ⟨((s.data.dropWhile Char.isWhitespace).reverse.dropWhile Char.isWhitespace).reverse⟩

/-- JS `String.prototype.toLowerCase()`, character by character. -/
def jsToLower (s : String) : String :=
  ⟨s.data.map Char.toLower⟩

/-- Source line 665: the banner prepended on every offline submit. -/
def offlineIntroText : String :=
  "You\x27re currently offline. I have limited functionality, but I\x27ll try to help with basic information."

/-- Source line 681: the distinct message shown on an offline cache miss. -/
def noOfflineAnswerText : String :=
  "I don\x27t have an offline answer for this question. Please reconnect to the internet for a complete response."

/-- Source line 739: the message appended when the live request throws
(network failure or non-2xx status rethrown at line 703). -/
def requestErrorText : String :=
  "Sorry, there was an error processing your request. Please check your network connection and make sure the server is running."

/-- The JSON value found at `data.response` in the server reply (source
lines 706-711): either a string, or any other JSON value carried here
together with its `JSON.stringify` rendering. -/
inductive RespPayload where
  | str (s : String)
  | other (stringified : String)
deriving DecidableEq

/-- `typeof data.response === 'string' ? data.response : JSON.stringify(data.response)`
(source lines 709-711). -/
def RespPayload.render : RespPayload → String
  | .str s => s
  | .other j => j

/-- Outcome of the `fetch` call at source line 693: a thrown network/parse
error, or a settled response with an HTTP status and parsed body. -/
inductive FetchResult where
  | networkError
  | ok (status : Nat) (payload : RespPayload)
deriving DecidableEq

/-- `handleSubmit` (source lines 607-744), as a function of the component
state, the submitted text and the outcome the `fetch` would have if it is
reached.  The second component lists the bodies of the HTTP requests the
call issues (each request sends `{ message: userMessage }`, line 699).
Faithful points: the guard at line 609; the user bubble and input clear at
lines 618-619; the offline branch at lines 659-687 looks the key up with
`userMessage.toLowerCase().trim()` and tests the result for JS truthiness,
so an empty-string answer takes the miss branch; `response.ok` is
`200 ≤ status ≤ 299`; every path past the guard ends with
`setIsLoading(false)` (line 685 or the `finally` at line 742). -/
def handleSubmit (s : AIState) (text : String) (fetch : FetchResult) :
    AIState × List String :=
  let messageToSend := jsTrim text
  if messageToSend = "" ∨ s.isLoading = true then (s, [])
  else
    let s1 : AIState :=
      { s with messages := s.messages ++ [{ type := "user", text := messageToSend }],
               inputText := "" }
    if s.isOnline = false then
      let s2 : AIState :=
        { s1 with messages := s1.messages ++ [{ type := "computer", text := offlineIntroText }] }
      let offlineAnswer := recordGet s.offlineResponses (jsTrim (jsToLower messageToSend))
      let s3 : AIState :=
        match offlineAnswer with
        | some a =>
            if a = "" then
              { s2 with messages := s2.messages ++ [{ type := "computer", text := noOfflineAnswerText }] }
            else
              { s2 with messages := s2.messages ++ [{ type := "computer", text := a }] }
        | none =>
            { s2 with messages := s2.messages ++ [{ type := "computer", text := noOfflineAnswerText }] }
      ({ s3 with isLoading := false }, [])
    else
      match fetch with
      | .networkError =>
          ({ s1 with messages := s1.messages ++ [{ type := "computer", text := requestErrorText }],
                     isLoading := false }, [messageToSend])
      | .ok status payload =>
          if 200 ≤ status ∧ status ≤ 299 then
            ({ s1 with messages := s1.messages ++ [{ type := "computer", text := payload.render }],
                       isLoading := false }, [messageToSend])
          else
            ({ s1 with messages := s1.messages ++ [{ type := "computer", text := requestErrorText }],
                       isLoading := false }, [messageToSend])

/-- The NetInfo listener (source lines 187-191):
`setIsOnline(state.isConnected ?? false)` and nothing else. -/
def netInfoUpdate (s : AIState) (isConnected : Option Bool) : AIState :=
  { s with isOnline := isConnected.getD false }

/-! Concrete assistant-screen fixtures used by witnesses and
counterexamples. -/

/-- Offline cache holding the cramps entry of the specification example. -/
def crampsCache : List (String × String) :=
  [("what causes cramps?", "Uterine muscle contractions triggered by prostaglandins cause cramps.")]

/-- Offline state with the cramps cache. -/
def sCramps : AIState :=
  { messages := [], inputText := "", isLoading := false, isOnline := false,
    offlineResponses := crampsCache }

/-- Offline state whose cache stores the empty string under key `"q"`. -/
def sEmptyAnswer : AIState :=
  { messages := [], inputText := "", isLoading := false, isOnline := false,
    offlineResponses := [("q", "")] }

/-- Online state with an empty conversation. -/
def sOnline : AIState :=
  { messages := [], inputText := "", isLoading := false, isOnline := true,
    offlineResponses := [] }

/-! ## Patient chat screen (`PatientChat`, lines 1160-1603) -/

/-- A chat message as defined at source lines 1151-1158.  `new Date(x)`
conversion keeps the instant, so timestamps are embedded as epoch
milliseconds and the conversion at lines 1241 and 1258 is the identity. -/
structure Message where
  id : String
  text : String
  senderId : String
  senderType : String
  timestamp : Nat
  isRead : Bool
deriving DecidableEq

/-- The `PatientChat` component state the socket handlers and send/typing
paths read or write (source lines 1164-1169). -/
structure ChatState where
  message : String
  messages : List Message
  isConnecting : Bool
  isTyping : Bool
  isConnected : Bool
deriving DecidableEq

/-- A socket event the client emits (`socket.emit`, source lines 1273,
1303, 1319, 1335). -/
inductive Emit where
  | joinChat (patientId doctorId : String)
  | msg (text : String) (chatId : String) (timestamp : Nat)
  | typing (chatId : String) (isTyping : Bool)
  | markAsRead (chatId : String) (messageIds : List String)
deriving DecidableEq

/-- The `connect` handler (source lines 1198-1216): stops the connecting
spinner, emits `joinChat` and replaces the list with the welcome message,
stamped with the current time. -/
def onConnect (pid did : String) (now : Nat) (s : ChatState) :
    ChatState × List Emit :=
  ({ s with isConnecting := false,
            messages := [{ id := "system-welcome",
                           text := "Connected to healthcare chat. Start a conversation with a doctor.",
                           senderId := "system", senderType := "system",
                           timestamp := now, isRead := true }] },
   [Emit.joinChat pid did])

/-- The `previousMessages` handler (source lines 1235-1251): when the
batch is non-empty, appends it after the current list (the timestamp map
is the identity here) and marks the session connected.  Nothing is
deduplicated. -/
def onPreviousMessages (s : ChatState) (messageHistory : List Message) :
    ChatState :=
  if messageHistory.isEmpty then s
  else { s with messages := s.messages ++ messageHistory, isConnected := true }

/-- The `message` handler (source lines 1254-1278): appends the incoming
message unconditionally, clears the typing indicator, marks the session
connected, and, when the sender is not the local patient, emits one
`markAsRead` carrying exactly that message identifier. -/
def onMessage (pid cid : String) (s : ChatState) (data : Message) :
    ChatState × List Emit :=
  let s1 : ChatState :=
    { s with messages := s.messages ++ [data], isTyping := false, isConnected := true }
  if data.senderId ≠ pid then (s1, [Emit.markAsRead cid [data.id]])
  else (s1, [])

/-- The `typing` handler (source lines 1281-1285): stores the flag as sent
whenever the event does not come from the local patient.  No timer is
scheduled. -/
def onTyping (pid : String) (s : ChatState) (userId : String) (typing : Bool) :
    ChatState :=
  if userId ≠ pid then { s with isTyping := typing } else s

/-- `sendMessage` (source lines 1310-1328): on a blank input nothing
happens; otherwise the raw input is emitted as a `message` event stamped
with the current time and the input is cleared.  The local message list is
not touched. -/
def sendMessage (cid : String) (now : Nat) (s : ChatState) :
    ChatState × List Emit :=
  if jsTrim s.message = "" then (s, [])
  else ({ s with message := "" }, [Emit.msg s.message cid now])

/-- `handleTyping` (source lines 1331-1339): stores the new input text and
emits a `typing` event carrying `text.length > 0` — on every call. -/
def handleTyping (cid : String) (s : ChatState) (text : String) :
    ChatState × List Emit :=
  ({ s with message := text }, [Emit.typing cid (!text.data.isEmpty)])

/-- An externally delivered occurrence the chat screen can react to.
`elapse ms` is the passage of wall-clock time: the component registers no
timers (the only interval in scope animates the typing dots and touches no
state modelled here), so time passing runs no handler. -/
inductive ChatEvent where
  | connected (now : Nat)
  | previousMessages (chatId : String) (messageHistory : List Message)
  | message (chatId : String) (data : Message)
  | typing (chatId userId : String) (isTyping : Bool)
  | localInput (text : String)
  | localSend (now : Nat)
  | elapse (ms : Nat)

/-- Dispatch of one occurrence to the handler the component registers for
it, together with the events emitted while handling it. -/
def step (pid cid : String) (s : ChatState) (e : ChatEvent) :
    ChatState × List Emit :=
  match e with
  | .connected now => onConnect pid "main_doctor" now s
  | .previousMessages _ h => (onPreviousMessages s h, [])
  | .message _ d => onMessage pid cid s d
  | .typing _ u b => (onTyping pid s u b, [])
  | .localInput t => handleTyping cid s t
  | .localSend now => sendMessage cid now s
  | .elapse _ => (s, [])

/-- Runs a sequence of occurrences from a state, accumulating the emitted
events in order. -/
def run (pid cid : String) (s : ChatState) : List ChatEvent → ChatState × List Emit
  | [] => (s, [])
  | e :: rest =>
      let p := step pid cid s e
      let q := run pid cid p.fst rest
      (q.fst, p.snd ++ q.snd)

/-! Concrete chat fixtures used by witnesses and counterexamples. -/

/-- A concrete local patient identifier (the source draws a random one at
line 1176). -/
def pid0 : String := "user_abc1234"

/-- The chat identifier `patientId-main_doctor` (source line 1179). -/
def cid0 : String := "user_abc1234-main_doctor"

/-- An idle chat state with an empty ledger. -/
def sChat0 : ChatState :=
  { message := "", messages := [], isConnecting := false, isTyping := false,
    isConnected := true }

/-- The idle state with `"hello"` pending in the input field. -/
def sHello : ChatState := { sChat0 with message := "hello" }

/-- A doctor message, as the server would push it. -/
def mDoc1 : Message :=
  { id := "d1", text := "Hello, how can I help?", senderId := "main_doctor",
    senderType := "doctor", timestamp := 1000, isRead := false }

/-- A second doctor message arriving in the same instant. -/
def mDoc2 : Message :=
  { id := "d2", text := "Are you still there?", senderId := "main_doctor",
    senderType := "doctor", timestamp := 1000, isRead := false }

/-- The server-confirmed copy of the patient message `"hello"`. -/
def mEcho : Message :=
  { id := "m1", text := "hello", senderId := "user_abc1234",
    senderType := "patient", timestamp := 1000, isRead := false }

/-! ## Helper lemmas shared across the development -/

/-- `sendMessage` leaves the message list untouched on both branches. -/
theorem sendMessage_fst_messages (cid : String) (now : Nat) (s : ChatState) :
    ((sendMessage cid now s).fst).messages = s.messages := by
  unfold sendMessage
  split <;> rfl

/-- Both branches of the `message` handler produce the same state: the
incoming message appended, typing cleared, session marked connected. -/
theorem onMessage_fst (pid cid : String) (s : ChatState) (d : Message) :
    (onMessage pid cid s d).fst =
      { s with messages := s.messages ++ [d], isTyping := false, isConnected := true } := by
  unfold onMessage
  split <;> rfl

/-- Looking anything up in the empty record yields JS `undefined`. -/
theorem recordGet_nil (k : String) : recordGet [] k = none := rfl

/-! ## C1 — offline answer cache lookup -/

/-- C1, counterexample: the claim says a present normalized key always
yields the stored answer, but the source tests the looked-up value for JS
truthiness (`if (offlineAnswer)`, line 671).  With the entry `("q", "")`
the key `"q"` is present, yet the submit appends the no-offline-answer
fallback instead of the stored (empty) answer text. -/
theorem c1_counterexample :
    recordGet sEmptyAnswer.offlineResponses "q" = some "" ∧
    (handleSubmit sEmptyAnswer "q" .networkError).fst.messages =
      [{ type := "user", text := "q" },
       { type := "computer", text := offlineIntroText },
       { type := "computer", text := noOfflineAnswerText }] ∧
    noOfflineAnswerText ≠ "" := by
  decide

/-- C1 (amended): while offline, the lookup normalizes the query by
trimming and lowercasing and performs an exact-key match; a present key
with a non-empty stored answer appends that answer; an absent key — or a
present key whose stored answer is the empty string — appends the distinct
no-offline-answer message instead, never failing silently. -/
theorem c1_offline_lookup_amended (s : AIState) (text : String) (f : FetchResult)
    (a : String)
    (hoff : s.isOnline = false) (hload : s.isLoading = false)
    (ht : jsTrim text ≠ "") :
    (recordGet s.offlineResponses (jsTrim (jsToLower (jsTrim text))) = some a → a ≠ "" →
      (handleSubmit s text f).fst.messages =
        s.messages ++ [{ type := "user", text := jsTrim text },
                       { type := "computer", text := offlineIntroText },
                       { type := "computer", text := a }])
    ∧ (recordGet s.offlineResponses (jsTrim (jsToLower (jsTrim text))) = none →
      (handleSubmit s text f).fst.messages =
        s.messages ++ [{ type := "user", text := jsTrim text },
                       { type := "computer", text := offlineIntroText },
                       { type := "computer", text := noOfflineAnswerText }])
    ∧ (recordGet s.offlineResponses (jsTrim (jsToLower (jsTrim text))) = some "" →
      (handleSubmit s text f).fst.messages =
        s.messages ++ [{ type := "user", text := jsTrim text },
                       { type := "computer", text := offlineIntroText },
                       { type := "computer", text := noOfflineAnswerText }]) := by
  refine ⟨fun h1 h2 => ?_, fun h1 => ?_, fun h1 => ?_⟩
  · simp [handleSubmit, hoff, hload, ht, h1, h2]
  · simp [handleSubmit, hoff, hload, ht, h1]
  · simp [handleSubmit, hoff, hload, ht, h1]

/-- C1 witness: the specification example, discharged through the amended
theorem — the entry keyed `"what causes cramps?"` answers the query
`"  what causes CRAMPS?  "`, and `"something unrelated"` gets the distinct
fallback message. -/
theorem c1_offline_lookup_amended_witness :
    (handleSubmit sCramps "  what causes CRAMPS?  " .networkError).fst.messages =
      [{ type := "user", text := "what causes CRAMPS?" },
       { type := "computer", text := offlineIntroText },
       { type := "computer",
         text := "Uterine muscle contractions triggered by prostaglandins cause cramps." }]
    ∧ (handleSubmit sCramps "something unrelated" .networkError).fst.messages =
      [{ type := "user", text := "something unrelated" },
       { type := "computer", text := offlineIntroText },
       { type := "computer", text := noOfflineAnswerText }] := by
  constructor
  · exact ((c1_offline_lookup_amended sCramps "  what causes CRAMPS?  " .networkError
      "Uterine muscle contractions triggered by prostaglandins cause cramps."
      rfl rfl (by decide)).1 (by decide) (by decide)).trans (by decide)
  · exact ((c1_offline_lookup_amended sCramps "something unrelated" .networkError ""
      rfl rfl (by decide)).2.1 (by decide)).trans (by decide)

/-! ## C10 — empty-string cache answer behaves as a miss -/

/-- C10 (confirmed): because presence is tested by truthiness of the
looked-up value rather than key membership, an offline cache entry whose
stored answer is the empty string is indistinguishable from a cache miss:
the offline path appends the no-offline-answer fallback, exactly as it
would with the entry absent. -/
theorem c10_empty_answer_miss (s : AIState) (text : String) (f : FetchResult)
    (hoff : s.isOnline = false) (hload : s.isLoading = false)
    (ht : jsTrim text ≠ "")
    (hkey : recordGet s.offlineResponses (jsTrim (jsToLower (jsTrim text))) = some "") :
    (handleSubmit s text f).fst.messages =
      s.messages ++ [{ type := "user", text := jsTrim text },
                     { type := "computer", text := offlineIntroText },
                     { type := "computer", text := noOfflineAnswerText }]
    ∧ (handleSubmit s text f).fst.messages =
        (handleSubmit { s with offlineResponses := [] } text f).fst.messages := by
  constructor
  · simp [handleSubmit, hoff, hload, ht, hkey]
  · simp [handleSubmit, hoff, hload, ht, hkey, recordGet_nil]

/-- C10 witness: the concrete cache `[("q", "")]`, queried with `"q"`. -/
theorem c10_empty_answer_miss_witness :
    (handleSubmit sEmptyAnswer "q" .networkError).fst.messages =
      [{ type := "user", text := "q" },
       { type := "computer", text := offlineIntroText },
       { type := "computer", text := noOfflineAnswerText }]
    ∧ (handleSubmit sEmptyAnswer "q" .networkError).fst.messages =
        (handleSubmit { sEmptyAnswer with offlineResponses := [] } "q" .networkError).fst.messages := by
  have h := c10_empty_answer_miss sEmptyAnswer "q" .networkError rfl rfl (by decide) (by decide)
  exact ⟨h.1.trans (by decide), h.2⟩

/-! ## C4 — the network-mode resolver is a pure gate -/

/-- C4 (confirmed): while the resolver is offline, a submit issues no HTTP
request and its outcome is independent of what any fetch would return
(the query is routed only through the offline cache path); the
connectivity listener changes nothing but the `isOnline` flag, so no query
is buffered or replayed across a transition; and any submit whatsoever
issues at most the request for the query just entered — never a stored
one. -/
theorem c4_offline_gate (s : AIState) (text : String) (f g : FetchResult)
    (c : Option Bool) (hoff : s.isOnline = false) :
    (handleSubmit s text f).snd = []
    ∧ handleSubmit s text f = handleSubmit s text g
    ∧ (netInfoUpdate s c).messages = s.messages
    ∧ (netInfoUpdate s c).inputText = s.inputText
    ∧ (netInfoUpdate s c).isLoading = s.isLoading
    ∧ (netInfoUpdate s c).offlineResponses = s.offlineResponses
    ∧ ∀ (s2 : AIState) (t2 : String) (f2 : FetchResult),
        (handleSubmit s2 t2 f2).snd = [] ∨ (handleSubmit s2 t2 f2).snd = [jsTrim t2] := by
  refine ⟨?_, ?_, rfl, rfl, rfl, rfl, ?_⟩
  · by_cases hg : jsTrim text = "" ∨ s.isLoading = true
    · simp [handleSubmit, hg]
    · simp [handleSubmit, hg, hoff]
  · by_cases hg : jsTrim text = "" ∨ s.isLoading = true
    · simp [handleSubmit, hg]
    · simp [handleSubmit, hg, hoff]
  · intro s2 t2 f2
    by_cases hg : jsTrim t2 = "" ∨ s2.isLoading = true
    · exact Or.inl (by simp [handleSubmit, hg])
    · by_cases hon : s2.isOnline = false
      · exact Or.inl (by simp [handleSubmit, hg, hon])
      · cases f2 with
        | networkError => exact Or.inr (by simp [handleSubmit, hg, hon])
        | ok status payload =>
            by_cases h2 : 200 ≤ status ∧ status ≤ 299
            · exact Or.inr (by simp [handleSubmit, hg, hon, h2])
            · exact Or.inr (by simp [handleSubmit, hg, hon, h2])

/-- C4 witness: the offline cramps state issues no request regardless of
the hypothetical fetch outcome, the connectivity flip to online touches
nothing else, and a fresh online submit issues only its own query. -/
theorem c4_offline_gate_witness :
    (handleSubmit sCramps "hello" .networkError).snd = []
    ∧ handleSubmit sCramps "hello" .networkError = handleSubmit sCramps "hello" (.ok 200 (.str "x"))
    ∧ (netInfoUpdate sCramps (some true)).messages = sCramps.messages
    ∧ (netInfoUpdate sCramps (some true)).inputText = sCramps.inputText
    ∧ (netInfoUpdate sCramps (some true)).isLoading = sCramps.isLoading
    ∧ (netInfoUpdate sCramps (some true)).offlineResponses = sCramps.offlineResponses
    ∧ ((handleSubmit sOnline "hi" (.ok 500 (.str "ignored"))).snd = []
        ∨ (handleSubmit sOnline "hi" (.ok 500 (.str "ignored"))).snd = [jsTrim "hi"]) := by
  have h := c4_offline_gate sCramps "hello" .networkError (.ok 200 (.str "x")) (some true) rfl
  exact ⟨h.1, h.2.1, h.2.2.1, h.2.2.2.1, h.2.2.2.2.1, h.2.2.2.2.2.1,
    h.2.2.2.2.2.2 sOnline "hi" (.ok 500 (.str "ignored"))⟩

/-! ## C8 — non-2xx responses surface a request error -/

/-- C8 (confirmed): when a live request settles with a non-2xx status the
code throws at the `response.ok` check and the catch block runs: the
conversation gains exactly the user bubble and the error message asking
the user to check connectivity and the server, no AI answer is appended,
and the loading flag ends cleared. -/
theorem c8_request_error (s : AIState) (text : String) (status : Nat)
    (payload : RespPayload)
    (hon : s.isOnline = true) (hload : s.isLoading = false)
    (ht : jsTrim text ≠ "") (hstatus : ¬ (200 ≤ status ∧ status ≤ 299)) :
    handleSubmit s text (.ok status payload) =
      ({ s with messages := s.messages ++ [{ type := "user", text := jsTrim text },
                                           { type := "computer", text := requestErrorText }],
                inputText := "", isLoading := false }, [jsTrim text]) := by
  simp [handleSubmit, hon, hload, ht, hstatus]

/-- C8 witness: a 500 response to `"hi"` from the online empty state. -/
theorem c8_request_error_witness :
    handleSubmit sOnline "hi" (.ok 500 (.str "ignored")) =
      ({ sOnline with messages := [{ type := "user", text := "hi" },
                                   { type := "computer", text := requestErrorText }],
                      inputText := "", isLoading := false }, ["hi"]) := by
  exact (c8_request_error sOnline "hi" 500 (.str "ignored") rfl rfl (by decide)
    (by decide)).trans (by decide)

/-! ## C2 — history ingestion is not idempotent -/

/-- C2, counterexample: ingesting the one-message batch `[mDoc1]` twice
from the same starting ledger duplicates the entry — the resulting ledger
differs from the one after a single ingestion, so the handler is not
idempotent. -/
theorem c2_counterexample :
    onPreviousMessages (onPreviousMessages sChat0 [mDoc1]) [mDoc1] ≠
      onPreviousMessages sChat0 [mDoc1]
    ∧ (onPreviousMessages (onPreviousMessages sChat0 [mDoc1]) [mDoc1]).messages =
        [mDoc1, mDoc1] := by
  decide

/-- C2 (amended): the `previousMessages` handler appends the batch to the
ledger on every call with no deduplication, so replaying a non-empty batch
duplicates every entry: two ingestions of `B` leave `original ++ B ++ B`
(and `original.length + 2 * B.length` entries); only the empty batch is
ingested idempotently. -/
theorem c2_ingest_history_amended (s : ChatState) (B : List Message) (h : B ≠ []) :
    onPreviousMessages (onPreviousMessages s B) B =
      { s with messages := s.messages ++ B ++ B, isConnected := true }
    ∧ (onPreviousMessages (onPreviousMessages s B) B).messages.length =
        s.messages.length + 2 * B.length
    ∧ ∀ s2 : ChatState, onPreviousMessages s2 [] = s2 := by
  have hB : B.isEmpty = false := by
    cases B with
    | nil => exact absurd rfl h
    | cons x xs => rfl
  refine ⟨?_, ?_, fun s2 => rfl⟩
  · simp [onPreviousMessages, hB]
  · simp [onPreviousMessages, hB]
    omega

/-- C2 witness: the amended statement at the concrete batch `[mDoc1]`. -/
theorem c2_ingest_history_amended_witness :
    onPreviousMessages (onPreviousMessages sChat0 [mDoc1]) [mDoc1] =
      { sChat0 with messages := sChat0.messages ++ [mDoc1] ++ [mDoc1], isConnected := true }
    ∧ (onPreviousMessages (onPreviousMessages sChat0 [mDoc1]) [mDoc1]).messages.length =
        sChat0.messages.length + 2 * [mDoc1].length
    ∧ ∀ s2 : ChatState, onPreviousMessages s2 [] = s2 :=
  c2_ingest_history_amended sChat0 [mDoc1] (by decide)

/-! ## C3 — round-trip produces one entry only as long as the server echoes once -/

/-- C3, counterexample: the send path appends nothing and the `message`
handler appends every delivery unconditionally — there is no
identifier-based reconciliation.  Sending `"hello"` and then receiving its
server echo (identifier `"m1"`) twice leaves two ledger entries with the
matching identifier, which the claim says can never happen. -/
theorem c3_counterexample :
    ((run pid0 cid0 sHello
        [.localSend 1000, .message cid0 mEcho, .message cid0 mEcho]).fst.messages.filter
      (fun x => x.id == "m1")).length = 2 := by
  decide

/-- C3 (amended): `sendMessage` appends nothing to the ledger (the entry
for a sent message is created only by the server echo), so after a local
send followed by exactly one echo whose identifier is not already present,
the ledger holds exactly one entry with that identifier; the code has no
delivery-state field, and the echo of the local party's own message
triggers no `markAsRead`.  Uniqueness relies on the server echoing once —
a repeated echo duplicates the entry. -/
theorem c3_round_trip_amended (pid cid : String) (now : Nat) (s : ChatState)
    (m : Message)
    (hfresh : s.messages.filter (fun x => x.id == m.id) = [])
    (hmine : m.senderId = pid) :
    ((sendMessage cid now s).fst).messages = s.messages
    ∧ (((onMessage pid cid (sendMessage cid now s).fst m).fst).messages.filter
        (fun x => x.id == m.id)) = [m]
    ∧ (onMessage pid cid (sendMessage cid now s).fst m).snd = [] := by
  refine ⟨sendMessage_fst_messages cid now s, ?_, ?_⟩
  · rw [onMessage_fst]
    simp [sendMessage_fst_messages, List.filter_append, hfresh]
  · simp [onMessage, hmine]

/-- C3 witness: the `"hello"` send and its single echo `mEcho`. -/
theorem c3_round_trip_amended_witness :
    ((sendMessage cid0 1000 sHello).fst).messages = sHello.messages
    ∧ (((onMessage pid0 cid0 (sendMessage cid0 1000 sHello).fst mEcho).fst).messages.filter
        (fun x => x.id == mEcho.id)) = [mEcho]
    ∧ (onMessage pid0 cid0 (sendMessage cid0 1000 sHello).fst mEcho).snd = [] :=
  c3_round_trip_amended pid0 cid0 1000 sHello mEcho (by decide) (by decide)

/-! ## C5 — remote typing state does not auto-expire -/

/-- C5, counterexample: after the doctor starts typing and five seconds
pass with no further event, the exposed typing boolean is still `true` —
the claim says the expiry window (5s) reverts it to `false`.  The handler
schedules no timer. -/
theorem c5_counterexample :
    (run pid0 cid0 sChat0 [.typing cid0 "main_doctor" true, .elapse 5000]).fst.isTyping
      = true := by
  decide

/-- C5 (amended): the remote typing flag never expires on its own — the
passage of any amount of time is a no-op on the component state — and it
changes only when another party's explicit `typing` event stores its flag,
or when a `message` event arrives and clears it. -/
theorem c5_typing_no_expiry_amended (pid cid u : String) (s : ChatState)
    (ms : Nat) (b : Bool) (d : Message) (h : u ≠ pid) :
    step pid cid s (.elapse ms) = (s, [])
    ∧ ((step pid cid s (.typing cid u b)).fst).isTyping = b
    ∧ ((step pid cid s (.message cid d)).fst).isTyping = false := by
  refine ⟨rfl, ?_, ?_⟩
  · simp [step, onTyping, h]
  · show ((onMessage pid cid s d).fst).isTyping = false
    rw [onMessage_fst]

/-- C5 witness: the doctor's typing-true flag survives a 5000ms pause and
is cleared by an explicit typing-false event. -/
theorem c5_typing_no_expiry_amended_witness :
    step pid0 cid0 sChat0 (.elapse 5000) = (sChat0, [])
    ∧ ((step pid0 cid0 sChat0 (.typing cid0 "main_doctor" true)).fst).isTyping = true
    ∧ ((step pid0 cid0 sChat0 (.message cid0 mDoc1)).fst).isTyping = false :=
  c5_typing_no_expiry_amended pid0 cid0 "main_doctor" sChat0 5000 true mDoc1 (by decide)

/-! ## C6 — typing events are emitted per keystroke, not on edges -/

/-- C6, counterexample: two consecutive keystrokes (`"h"` then `"hi"`)
leave the local typing state unchanged at true, yet two `typing` events
are emitted — the claim says an event is emitted only on a false↔true
transition and never once per keystroke within an unchanged state. -/
theorem c6_counterexample :
    (run pid0 cid0 sChat0 [.localInput "h", .localInput "hi"]).snd =
      [Emit.typing cid0 true, Emit.typing cid0 true]
    ∧ (run pid0 cid0 sChat0 [.localInput "h", .localInput "hi"]).snd.length = 2 := by
  decide

/-- C6 (amended): `handleTyping` emits exactly one `typing` event per
input change, carrying `text.length > 0`, regardless of the previous
typing state — there is no edge detection and no debounce window. -/
theorem c6_typing_emission_amended (pid cid : String) (s : ChatState)
    (ts : List String) :
    (run pid cid s (ts.map ChatEvent.localInput)).snd =
      ts.map (fun t => Emit.typing cid (!t.data.isEmpty)) := by
  induction ts generalizing s with
  | nil => rfl
  | cons t rest ih => simp [run, step, handleTyping, ih]

/-! ## C7 — read receipts are per message and nothing is marked delivered -/

/-- C7, counterexample: two doctor messages arriving in the same instant
(well within any 500ms window) produce two separate `markAsRead`
emissions, each carrying a single identifier — not one batched event with
both — and the stored entries are the pushed messages unchanged, with no
delivered marking (their `isRead` stays false). -/
theorem c7_counterexample :
    (run pid0 cid0 sChat0 [.message cid0 mDoc1, .message cid0 mDoc2]).snd.length = 2
    ∧ (run pid0 cid0 sChat0 [.message cid0 mDoc1, .message cid0 mDoc2]).snd ≠
        [Emit.markAsRead cid0 ["d1", "d2"]]
    ∧ (run pid0 cid0 sChat0 [.message cid0 mDoc1, .message cid0 mDoc2]).fst.messages =
        [mDoc1, mDoc2]
    ∧ mDoc1.isRead = false := by
  decide

/-- C7 (amended): every live-ingested message whose sender is not the
local party immediately triggers one `markAsRead` event carrying exactly
that message's identifier — one event per message, never batched — while
the message itself is appended unchanged (nothing is marked delivered; the
code has no delivery state); a live-ingested message authored by the local
party triggers no `markAsRead` event. -/
theorem c7_read_receipt_amended (pid cid : String) (s : ChatState)
    (d1 d2 e : Message)
    (h1 : d1.senderId ≠ pid) (h2 : d2.senderId ≠ pid) (he : e.senderId = pid) :
    (run pid cid s [.message cid d1, .message cid d2]).snd =
      [Emit.markAsRead cid [d1.id], Emit.markAsRead cid [d2.id]]
    ∧ (run pid cid s [.message cid d1, .message cid d2]).fst.messages =
        s.messages ++ [d1, d2]
    ∧ (onMessage pid cid s e).snd = [] := by
  refine ⟨?_, ?_, ?_⟩
  · simp [run, step, onMessage, h1, h2]
  · simp [run, step, onMessage, h1, h2]
  · simp [onMessage, he]

/-- C7 witness: the two concrete doctor messages and the patient echo. -/
theorem c7_read_receipt_amended_witness :
    (run pid0 cid0 sChat0 [.message cid0 mDoc1, .message cid0 mDoc2]).snd =
      [Emit.markAsRead cid0 [mDoc1.id], Emit.markAsRead cid0 [mDoc2.id]]
    ∧ (run pid0 cid0 sChat0 [.message cid0 mDoc1, .message cid0 mDoc2]).fst.messages =
        sChat0.messages ++ [mDoc1, mDoc2]
    ∧ (onMessage pid0 cid0 sChat0 mEcho).snd = [] :=
  c7_read_receipt_amended pid0 cid0 sChat0 mDoc1 mDoc2 mEcho
    (by decide) (by decide) (by decide)

/-! ## C9 — sending never touches the ledger -/

/-- C9 (confirmed): `sendMessage` never modifies the message ledger — for
any state it leaves `messages` untouched; on a non-blank input it emits
exactly one `message` socket event carrying the raw input and clears the
input field; and a patient-sent message enters the ledger only when the
server echoes it back, the `message` handler appending exactly the echoed
message. -/
theorem c9_send_frame (cid : String) (now : Nat) (s : ChatState)
    (h : jsTrim s.message ≠ "") :
    (∀ s2 : ChatState, ((sendMessage cid now s2).fst).messages = s2.messages)
    ∧ sendMessage cid now s = ({ s with message := "" }, [Emit.msg s.message cid now])
    ∧ ∀ (pid : String) (d : Message),
        ((onMessage pid cid s d).fst).messages = s.messages ++ [d] := by
  refine ⟨fun s2 => sendMessage_fst_messages cid now s2, ?_, fun pid d => ?_⟩
  · simp [sendMessage, h]
  · rw [onMessage_fst]

/-- C9 witness: the `"hello"` input state. -/
theorem c9_send_frame_witness :
    ((sendMessage cid0 1000 sHello).fst).messages = sHello.messages
    ∧ sendMessage cid0 1000 sHello = ({ sHello with message := "" }, [Emit.msg "hello" cid0 1000])
    ∧ ((onMessage pid0 cid0 sHello mEcho).fst).messages = sHello.messages ++ [mEcho] := by
  have h := c9_send_frame cid0 1000 sHello (by decide)
  exact ⟨h.1 sHello, h.2.1, h.2.2 pid0 mEcho⟩
